import Mathlib

/-!
Shallow embedding of src/buffer.c (kdbus receive-buffer slot allocator and
cross-process page-map transfer engine), with theorems checking the
natural-language specification against it.

Machine integers (size_t, unsigned int, unsigned long) are modelled as Nat;
all arithmetic in the claims stays far below 2^64, so wrap-around is not
exercised.  Pointers into the receiver's buffer are modelled by their byte
offset from the buffer base (the C code returns buf->buf + pos; we return pos).
-/

/-- KDBUS_ALIGN8(s) — the C macro ALIGN(s, 8) = ((s + 7) & ~7), i.e. the least
multiple of 8 that is ≥ s; on Nat this is (s + 7) / 8 * 8. -/
def KDBUS_ALIGN8 (s : Nat) : Nat := (s + 7) / 8 * 8

/-- struct kdbus_buffer: receiver-supplied buffer descriptor.  The __user base
pointer is omitted (offsets stand for the returned pointers). Fields:
size (size of buffer), pos (current write position), users (outstanding
slot count). -/
structure KdbusBuffer where
  size : Nat
  pos : Nat
  users : Nat
deriving DecidableEq

/-- kdbus_buffer_alloc (src/buffer.c:45-58): align the cursor up to 8 bytes,
fail (return NULL, buffer untouched) if the aligned cursor plus len overruns
the buffer, else advance the cursor past the slot, bump the user count and
return the aligned offset. Result is (returned offset or none for NULL,
buffer state after the call). -/
def kdbus_buffer_alloc (b : KdbusBuffer) (len : Nat) : Option Nat × KdbusBuffer :=
  let pos := KDBUS_ALIGN8 b.pos
  if pos + len > b.size then
    (none, b)
  else
    (some pos, { b with pos := pos + len, users := b.users + 1 })

/-- kdbus_buffer_free (src/buffer.c:61-72): msg = none models a NULL msg
pointer (early return, no change); a non-null msg with users = 0 trips
BUG_ON, modelled as none (fatal abort); otherwise decrement users and, if
they hit zero, reset pos to 0.  The Bool records whether this call reset
the cursor. -/
def kdbus_buffer_free (b : KdbusBuffer) (msg : Option Nat) :
    Option (KdbusBuffer × Bool) :=
  match msg with
  | none => some (b, false)
  | some _ =>
    if b.users = 0 then
      none
    else if b.users - 1 = 0 then
      some ({ b with users := 0, pos := 0 }, true)
    else
      some ({ b with users := b.users - 1 }, false)

/-- One externally driven operation on a receiver buffer. -/
inductive BufOp where
  | alloc (len : Nat)
  | free (msg : Option Nat)
deriving DecidableEq

/-- Run a sequence of operations from a given buffer state.  Returns none if
some free hit the BUG_ON; otherwise the final state, the list of
(offset, length) slots handed out by successful allocations (in order), and
the number of cursor resets performed by frees. -/
def runBuf (b : KdbusBuffer) : List BufOp → Option (KdbusBuffer × List (Nat × Nat) × Nat)
  | [] => some (b, [], 0)
  | BufOp.alloc len :: ops =>
    match kdbus_buffer_alloc b len with
    | (none, b') => runBuf b' ops
    | (some off, b') =>
      (runBuf b' ops).map fun r => (r.1, (off, len) :: r.2.1, r.2.2)
  | BufOp.free msg :: ops =>
    match kdbus_buffer_free b msg with
    | none => none
    | some (b', didReset) =>
      (runBuf b' ops).map fun r => (r.1, r.2.1, (if didReset then 1 else 0) + r.2.2)

/-- A fresh buffer of the given size: cursor at 0, no outstanding slots. -/
def freshBuf (sz : Nat) : KdbusBuffer := ⟨sz, 0, 0⟩

lemma KDBUS_ALIGN8_mod (s : Nat) : KDBUS_ALIGN8 s % 8 = 0 := by
  simp [KDBUS_ALIGN8, Nat.mul_mod_left]

lemma le_KDBUS_ALIGN8 (s : Nat) : s ≤ KDBUS_ALIGN8 s := by
  unfold KDBUS_ALIGN8
  omega

lemma KDBUS_ALIGN8_lt (s : Nat) : KDBUS_ALIGN8 s < s + 8 := by
  unfold KDBUS_ALIGN8
  omega

/-- Case analysis helper: allocation fails when the aligned cursor plus the
length overruns the buffer, and the buffer is returned untouched. -/
lemma alloc_fail (b : KdbusBuffer) (len : Nat)
    (hc : b.size < KDBUS_ALIGN8 b.pos + len) :
    kdbus_buffer_alloc b len = (none, b) := by
  simp [kdbus_buffer_alloc, hc]

/-- Case analysis helper: allocation succeeds when the aligned cursor plus the
length fits, returning the aligned offset and the advanced state. -/
lemma alloc_ok (b : KdbusBuffer) (len : Nat)
    (hc : KDBUS_ALIGN8 b.pos + len ≤ b.size) :
    kdbus_buffer_alloc b len =
      (some (KDBUS_ALIGN8 b.pos),
       ⟨b.size, KDBUS_ALIGN8 b.pos + len, b.users + 1⟩) := by
  simp only [kdbus_buffer_alloc]
  rw [if_neg (by omega)]

/-- Case analysis helper: free with a NULL msg pointer is a no-op. -/
lemma free_null (b : KdbusBuffer) : kdbus_buffer_free b none = some (b, false) :=
  rfl

/-- Case analysis helper: free with a non-null msg and no outstanding slots
trips the BUG_ON. -/
lemma free_bug (b : KdbusBuffer) (hx : Nat) (h0 : b.users = 0) :
    kdbus_buffer_free b (some hx) = none := by
  simp [kdbus_buffer_free, h0]

/-- Case analysis helper: free with a non-null msg and a positive outstanding
count decrements the count and resets the cursor exactly when it hits zero;
the value of the handle plays no role. -/
lemma free_dec (b : KdbusBuffer) (hx : Nat) (hpos : 0 < b.users) :
    kdbus_buffer_free b (some hx) =
      some (⟨b.size, if b.users - 1 = 0 then 0 else b.pos, b.users - 1⟩,
            decide (b.users - 1 = 0)) := by
  simp only [kdbus_buffer_free]
  rw [if_neg (by omega)]
  by_cases hz : b.users - 1 = 0
  · simp [hz]
  · simp [hz]

/-- C1: allocate rounds the cursor up to 8-byte alignment (the least multiple
of 8 at or above it), fails leaving the buffer untouched when the aligned
cursor plus the requested length exceeds the total size, and otherwise
returns the aligned cursor as the slot offset, sets the cursor to
aligned + len and increments the outstanding count by one. -/
theorem alloc_spec (b : KdbusBuffer) (len : Nat) :
    (KDBUS_ALIGN8 b.pos % 8 = 0 ∧ b.pos ≤ KDBUS_ALIGN8 b.pos ∧
      KDBUS_ALIGN8 b.pos < b.pos + 8) ∧
    (KDBUS_ALIGN8 b.pos + len > b.size →
      kdbus_buffer_alloc b len = (none, b)) ∧
    (KDBUS_ALIGN8 b.pos + len ≤ b.size →
      kdbus_buffer_alloc b len =
        (some (KDBUS_ALIGN8 b.pos),
         ⟨b.size, KDBUS_ALIGN8 b.pos + len, b.users + 1⟩)) := by
  refine ⟨⟨KDBUS_ALIGN8_mod b.pos, le_KDBUS_ALIGN8 b.pos, KDBUS_ALIGN8_lt b.pos⟩, ?_, ?_⟩
  · intro h
    exact alloc_fail b len h
  · intro h
    exact alloc_ok b len h

/-- Witness for C1: a concrete success and a concrete failure. -/
theorem alloc_spec_witness :
    kdbus_buffer_alloc ⟨4096, 100, 1⟩ 100 = (some 104, ⟨4096, 204, 2⟩) ∧
    kdbus_buffer_alloc ⟨4096, 100, 1⟩ 4000 = (none, ⟨4096, 100, 1⟩) := by
  constructor
  · exact (alloc_spec ⟨4096, 100, 1⟩ 100).2.2 (by decide)
  · exact (alloc_spec ⟨4096, 100, 1⟩ 4000).2.1 (by decide)

/-- C3 counterexample: the claim says the stored cursor is a multiple of 8
after every operation, but a single allocation of length 100 from a fresh
4096-byte buffer leaves the stored cursor at 100, which is not. -/
theorem stored_cursor_unaligned :
    (kdbus_buffer_alloc (freshBuf 4096) 100).2.pos = 100 ∧
    ¬ (kdbus_buffer_alloc (freshBuf 4096) 100).2.pos % 8 = 0 := by
  decide

/-- C3 (amended): the cursor is rounded up to 8-byte alignment at each
allocation, so every slot offset handed out by a successful allocate is a
multiple of 8; the stored cursor itself equals that aligned offset plus the
requested length. -/
theorem alloc_offset_aligned (b : KdbusBuffer) (len off : Nat) (b' : KdbusBuffer)
    (h : kdbus_buffer_alloc b len = (some off, b')) :
    off % 8 = 0 ∧ b'.pos = off + len := by
  by_cases hc : KDBUS_ALIGN8 b.pos + len > b.size
  · rw [alloc_fail b len hc] at h
    simp at h
  · rw [alloc_ok b len (by omega)] at h
    obtain ⟨h1, h2⟩ := Prod.mk.injEq .. ▸ h
    cases h1
    cases h2
    exact ⟨KDBUS_ALIGN8_mod b.pos, rfl⟩

/-- Witness for C3 (amended): the second allocation of the C6 scenario hands
out offset 104, a multiple of 8, and stores cursor 204. -/
theorem alloc_offset_aligned_witness :
    104 % 8 = 0 ∧ (⟨4096, 204, 2⟩ : KdbusBuffer).pos = 104 + 100 :=
  alloc_offset_aligned ⟨4096, 100, 1⟩ 100 104 ⟨4096, 204, 2⟩ (by decide)

/-- C6: on a fresh 4096-byte buffer, two allocations of 100 bytes return
offsets 0 and 104; releasing the first slot leaves the count at 1 and the
cursor unchanged at 204; releasing the second resets the cursor to 0. -/
theorem scenario_4096 :
    runBuf (freshBuf 4096) [BufOp.alloc 100, BufOp.alloc 100] =
      some (⟨4096, 204, 2⟩, [(0, 100), (104, 100)], 0) ∧
    runBuf (freshBuf 4096) [BufOp.alloc 100, BufOp.alloc 100, BufOp.free (some 0)] =
      some (⟨4096, 204, 1⟩, [(0, 100), (104, 100)], 0) ∧
    runBuf (freshBuf 4096)
        [BufOp.alloc 100, BufOp.alloc 100, BufOp.free (some 0), BufOp.free (some 104)] =
      some (⟨4096, 0, 0⟩, [(0, 100), (104, 100)], 1) :=
  ⟨by decide, by decide, by decide⟩

/-- C2: release with a NULL handle is a no-op; release with a non-null handle
when no slot is outstanding is a fatal invariant violation (BUG_ON, modelled
as none); otherwise it decrements the outstanding count by one, resets the
cursor to zero exactly if the count reaches zero, and leaves the cursor
untouched otherwise. -/
theorem free_spec (b : KdbusBuffer) (hx : Nat) :
    kdbus_buffer_free b none = some (b, false) ∧
    (b.users = 0 → kdbus_buffer_free b (some hx) = none) ∧
    (0 < b.users →
      kdbus_buffer_free b (some hx) =
        some (⟨b.size, if b.users - 1 = 0 then 0 else b.pos, b.users - 1⟩,
              decide (b.users - 1 = 0))) :=
  ⟨free_null b, free_bug b hx, free_dec b hx⟩

/-- Witness for C2: a release leaving one slot outstanding keeps the cursor, a
release of the last slot resets it, and a release on an empty buffer aborts. -/
theorem free_spec_witness :
    kdbus_buffer_free ⟨4096, 204, 2⟩ (some 0) = some (⟨4096, 204, 1⟩, false) ∧
    kdbus_buffer_free ⟨4096, 204, 1⟩ (some 104) = some (⟨4096, 0, 0⟩, true) ∧
    kdbus_buffer_free ⟨4096, 0, 0⟩ (some 5) = none := by
  refine ⟨?_, ?_, ?_⟩
  · have h := (free_spec ⟨4096, 204, 2⟩ 0).2.2 (by decide)
    simpa using h
  · have h := (free_spec ⟨4096, 204, 1⟩ 104).2.2 (by decide)
    simpa using h
  · exact (free_spec ⟨4096, 0, 0⟩ 5).2.1 rfl

/-- C10: release inspects only the nullness of the handle, never its value:
any two non-null handles (valid or bogus) produce identical results, and for
a buffer with a positive outstanding count the common result is the decrement
(with reset exactly on reaching zero), whatever the handle value is. -/
theorem free_ignores_handle (b : KdbusBuffer) (h1 h2 : Nat) :
    kdbus_buffer_free b (some h1) = kdbus_buffer_free b (some h2) ∧
    (0 < b.users →
      kdbus_buffer_free b (some h1) =
        some (⟨b.size, if b.users - 1 = 0 then 0 else b.pos, b.users - 1⟩,
              decide (b.users - 1 = 0))) :=
  ⟨rfl, free_dec b h1⟩

/-- Witness for C10: handle 7 was never returned by any allocation on this
buffer, yet releasing it acts exactly like releasing the valid handle 0. -/
theorem free_ignores_handle_witness :
    kdbus_buffer_free ⟨4096, 204, 2⟩ (some 7) = kdbus_buffer_free ⟨4096, 204, 2⟩ (some 0) ∧
    kdbus_buffer_free ⟨4096, 204, 2⟩ (some 7) = some (⟨4096, 204, 1⟩, false) := by
  have h := free_ignores_handle ⟨4096, 204, 2⟩ 7 0
  refine ⟨h.1, ?_⟩
  have h2 := h.2 (by decide)
  simpa using h2

/-- Rewriting helper: a failing allocation leaves the run unchanged. -/
lemma runBuf_cons_alloc_fail (b : KdbusBuffer) (len : Nat) (ops : List BufOp)
    (hc : b.size < KDBUS_ALIGN8 b.pos + len) :
    runBuf b (BufOp.alloc len :: ops) = runBuf b ops := by
  simp only [runBuf, alloc_fail b len hc]

/-- Rewriting helper: a successful allocation records its slot and continues
from the advanced state. -/
lemma runBuf_cons_alloc_ok (b : KdbusBuffer) (len : Nat) (ops : List BufOp)
    (hc : KDBUS_ALIGN8 b.pos + len ≤ b.size) :
    runBuf b (BufOp.alloc len :: ops) =
      (runBuf ⟨b.size, KDBUS_ALIGN8 b.pos + len, b.users + 1⟩ ops).map
        (fun r => (r.1, (KDBUS_ALIGN8 b.pos, len) :: r.2.1, r.2.2)) := by
  simp only [runBuf, alloc_ok b len hc]

/-- Rewriting helper: a free of a NULL handle leaves the run unchanged. -/
lemma runBuf_cons_free_null (b : KdbusBuffer) (ops : List BufOp) :
    runBuf b (BufOp.free none :: ops) = runBuf b ops := by
  simp only [runBuf, free_null]
  cases hr : runBuf b ops <;> simp

/-- Rewriting helper: a free of a non-null handle on an empty buffer aborts
the whole run. -/
lemma runBuf_cons_free_bug (b : KdbusBuffer) (hx : Nat) (ops : List BufOp)
    (h0 : b.users = 0) :
    runBuf b (BufOp.free (some hx) :: ops) = none := by
  simp only [runBuf, free_bug b hx h0]

/-- Rewriting helper: a free of a non-null handle on a non-empty buffer
decrements, resets exactly on reaching zero, and continues. -/
lemma runBuf_cons_free_dec (b : KdbusBuffer) (hx : Nat) (ops : List BufOp)
    (hpos : 0 < b.users) :
    runBuf b (BufOp.free (some hx) :: ops) =
      (runBuf ⟨b.size, if b.users - 1 = 0 then 0 else b.pos, b.users - 1⟩ ops).map
        (fun r => (r.1, r.2.1, (if b.users - 1 = 0 then 1 else 0) + r.2.2)) := by
  simp only [runBuf, free_dec b hx hpos]
  by_cases hz : b.users - 1 = 0 <;> simp [hz]

/-- Size, cursor-bound and empty-implies-reset invariants are preserved by any
run that does not trip the BUG_ON. -/
lemma runBuf_preserves (ops : List BufOp) :
    ∀ b c ss r, runBuf b ops = some (c, ss, r) →
      b.pos ≤ b.size → (b.users = 0 → b.pos = 0) →
      c.size = b.size ∧ c.pos ≤ c.size ∧ (c.users = 0 → c.pos = 0) := by
  induction ops with
  | nil =>
    intro b c ss r h h1 h2
    simp only [runBuf, Option.some.injEq, Prod.mk.injEq] at h
    obtain ⟨rfl, -, -⟩ := h
    exact ⟨rfl, h1, h2⟩
  | cons op ops ih =>
    intro b c ss r h h1 h2
    cases op with
    | alloc len =>
      rcases Nat.lt_or_ge b.size (KDBUS_ALIGN8 b.pos + len) with hc | hc
      · rw [runBuf_cons_alloc_fail b len ops hc] at h
        exact ih b c ss r h h1 h2
      · rw [runBuf_cons_alloc_ok b len ops hc] at h
        cases hr : runBuf ⟨b.size, KDBUS_ALIGN8 b.pos + len, b.users + 1⟩ ops with
        | none => rw [hr] at h; simp at h
        | some t =>
          rw [hr] at h
          simp only [Option.map_some', Option.some.injEq, Prod.mk.injEq] at h
          obtain ⟨rfl, -, -⟩ := h
          have hm := ih _ t.1 t.2.1 t.2.2 hr hc (by intro hu; simp at hu)
          have hms : t.1.size = b.size := hm.1
          exact ⟨hms, hm.2.1, hm.2.2⟩
    | free msg =>
      cases msg with
      | none =>
        rw [runBuf_cons_free_null] at h
        exact ih b c ss r h h1 h2
      | some hx =>
        rcases Nat.eq_zero_or_pos b.users with h0 | hpos
        · rw [runBuf_cons_free_bug b hx ops h0] at h
          exact Option.noConfusion h
        · rw [runBuf_cons_free_dec b hx ops hpos] at h
          cases hr : runBuf ⟨b.size, if b.users - 1 = 0 then 0 else b.pos, b.users - 1⟩ ops with
          | none => rw [hr] at h; simp at h
          | some t =>
            rw [hr] at h
            simp only [Option.map_some', Option.some.injEq, Prod.mk.injEq] at h
            obtain ⟨rfl, -, -⟩ := h
            have hp1 : (if b.users - 1 = 0 then 0 else b.pos) ≤ b.size := by
              by_cases hz : b.users - 1 = 0
              · simp [hz]
              · simpa [hz] using h1
            have hp2 : b.users - 1 = 0 → (if b.users - 1 = 0 then 0 else b.pos) = 0 := by
              intro hz
              simp [hz]
            exact ih ⟨b.size, if b.users - 1 = 0 then 0 else b.pos, b.users - 1⟩
              t.1 t.2.1 t.2.2 hr hp1 hp2

/-- In a run with no cursor reset, the cursor is monotone, every slot handed
out lies between the starting and final cursor, and the slots are handed out
in strictly non-overlapping increasing order. -/
lemma runBuf_mono (ops : List BufOp) :
    ∀ b c ss, runBuf b ops = some (c, ss, 0) →
      b.pos ≤ c.pos ∧ (∀ s ∈ ss, b.pos ≤ s.1 ∧ s.1 + s.2 ≤ c.pos) ∧
      ss.Pairwise (fun s t => s.1 + s.2 ≤ t.1) := by
  induction ops with
  | nil =>
    intro b c ss h
    simp only [runBuf, Option.some.injEq, Prod.mk.injEq] at h
    obtain ⟨rfl, rfl, -⟩ := h
    exact ⟨le_refl _, by simp, List.Pairwise.nil⟩
  | cons op ops ih =>
    intro b c ss h
    cases op with
    | alloc len =>
      rcases Nat.lt_or_ge b.size (KDBUS_ALIGN8 b.pos + len) with hc | hc
      · rw [runBuf_cons_alloc_fail b len ops hc] at h
        exact ih b c ss h
      · rw [runBuf_cons_alloc_ok b len ops hc] at h
        cases hr : runBuf ⟨b.size, KDBUS_ALIGN8 b.pos + len, b.users + 1⟩ ops with
        | none => rw [hr] at h; simp at h
        | some t =>
          rw [hr] at h
          simp only [Option.map_some', Option.some.injEq, Prod.mk.injEq] at h
          obtain ⟨rfl, rfl, hr0⟩ := h
          have hr' : runBuf ⟨b.size, KDBUS_ALIGN8 b.pos + len, b.users + 1⟩ ops =
              some (t.1, t.2.1, 0) := by
            rw [hr, ← hr0]
          obtain ⟨hm1, hm2, hm3⟩ :=
            ih ⟨b.size, KDBUS_ALIGN8 b.pos + len, b.users + 1⟩ t.1 t.2.1 hr'
          have hm1' : KDBUS_ALIGN8 b.pos + len ≤ t.1.pos := hm1
          have hal := le_KDBUS_ALIGN8 b.pos
          refine ⟨by omega, ?_, ?_⟩
          · intro s hs
            rcases List.mem_cons.mp hs with rfl | hs'
            · exact ⟨hal, hm1'⟩
            · have h2 : KDBUS_ALIGN8 b.pos + len ≤ s.1 ∧ s.1 + s.2 ≤ t.1.pos := hm2 s hs'
              exact ⟨by omega, h2.2⟩
          · rw [List.pairwise_cons]
            refine ⟨?_, hm3⟩
            intro u hu
            exact (hm2 u hu).1
    | free msg =>
      cases msg with
      | none =>
        rw [runBuf_cons_free_null] at h
        exact ih b c ss h
      | some hx =>
        rcases Nat.eq_zero_or_pos b.users with h0 | hpos
        · rw [runBuf_cons_free_bug b hx ops h0] at h
          exact Option.noConfusion h
        · rw [runBuf_cons_free_dec b hx ops hpos] at h
          cases hr : runBuf ⟨b.size, if b.users - 1 = 0 then 0 else b.pos, b.users - 1⟩ ops with
          | none => rw [hr] at h; simp at h
          | some t =>
            rw [hr] at h
            simp only [Option.map_some', Option.some.injEq, Prod.mk.injEq] at h
            obtain ⟨rfl, rfl, hr0⟩ := h
            by_cases hz : b.users - 1 = 0
            · rw [if_pos hz] at hr0
              exact absurd hr0 (by omega)
            · rw [if_neg hz] at hr0
              have ht : t.2.2 = 0 := by omega
              have hr' : runBuf ⟨b.size, if b.users - 1 = 0 then 0 else b.pos, b.users - 1⟩ ops =
                  some (t.1, t.2.1, 0) := by
                rw [hr, ← ht]
              obtain ⟨hm1, hm2, hm3⟩ :=
                ih ⟨b.size, if b.users - 1 = 0 then 0 else b.pos, b.users - 1⟩ t.1 t.2.1 hr'
              have hm1' : (if b.users - 1 = 0 then 0 else b.pos) ≤ t.1.pos := hm1
              rw [if_neg hz] at hm1'
              refine ⟨hm1', ?_, hm3⟩
              intro s hs
              have h2 : (if b.users - 1 = 0 then 0 else b.pos) ≤ s.1 ∧ s.1 + s.2 ≤ t.1.pos :=
                hm2 s hs
              rw [if_neg hz] at h2
              exact h2

/-- Characterisation of a completed non-null free, used for the reset-exactness
part of the invariant claims. -/
lemma free_reset_iff (b : KdbusBuffer) (hx : Nat) (b' : KdbusBuffer) (dr : Bool)
    (h : kdbus_buffer_free b (some hx) = some (b', dr)) :
    (dr = true ↔ b'.users = 0) ∧ (dr = true → b'.pos = 0) ∧
    (dr = false → b'.pos = b.pos) := by
  rcases Nat.eq_zero_or_pos b.users with h0 | hpos
  · rw [free_bug b hx h0] at h
    exact Option.noConfusion h
  · rw [free_dec b hx hpos] at h
    simp only [Option.some.injEq, Prod.mk.injEq] at h
    obtain ⟨rfl, rfl⟩ := h
    by_cases hz : b.users - 1 = 0 <;> simp [hz]

/-- C4: along every sequence of allocate/release operations from a fresh
buffer in which the outstanding count never goes below zero (no BUG_ON), the
cursor never exceeds the buffer size, a zero outstanding count always comes
with a zero cursor, and a further non-null release resets the cursor to zero
exactly when it brings the outstanding count to zero and leaves the cursor
unchanged otherwise. -/
theorem run_cursor_bounded (sz : Nat) (ops : List BufOp) (b : KdbusBuffer)
    (ss : List (Nat × Nat)) (r : Nat)
    (h : runBuf (freshBuf sz) ops = some (b, ss, r)) :
    b.pos ≤ sz ∧ (b.users = 0 → b.pos = 0) ∧
    ∀ hx b' dr, kdbus_buffer_free b (some hx) = some (b', dr) →
      (dr = true ↔ b'.users = 0) ∧ (dr = true → b'.pos = 0) ∧
      (dr = false → b'.pos = b.pos) := by
  obtain ⟨hsz, hle, hz⟩ :=
    runBuf_preserves ops (freshBuf sz) b ss r h (Nat.zero_le _) (fun _ => rfl)
  refine ⟨?_, hz, fun hx b' dr hf => free_reset_iff b hx b' dr hf⟩
  have : b.size = sz := hsz
  omega

/-- Witness for C4: the state reached by one allocation of 100 bytes. -/
theorem run_cursor_bounded_witness :
    runBuf (freshBuf 4096) [BufOp.alloc 100] = some (⟨4096, 100, 1⟩, [(0, 100)], 0) ∧
    ((⟨4096, 100, 1⟩ : KdbusBuffer).pos ≤ 4096 ∧
     ((⟨4096, 100, 1⟩ : KdbusBuffer).users = 0 → (⟨4096, 100, 1⟩ : KdbusBuffer).pos = 0) ∧
     ∀ hx b' dr, kdbus_buffer_free ⟨4096, 100, 1⟩ (some hx) = some (b', dr) →
       (dr = true ↔ b'.users = 0) ∧ (dr = true → b'.pos = 0) ∧
       (dr = false → b'.pos = (⟨4096, 100, 1⟩ : KdbusBuffer).pos)) :=
  ⟨by decide,
   run_cursor_bounded 4096 [BufOp.alloc 100] ⟨4096, 100, 1⟩ [(0, 100)] 0 (by decide)⟩

/-- C5: in any run from a fresh buffer during which the outstanding count
never returns to zero (no cursor reset), the slot byte ranges
[offset, offset + length) handed out by the successful allocations are
pairwise disjoint. -/
theorem slots_disjoint (sz : Nat) (ops : List BufOp) (c : KdbusBuffer)
    (ss : List (Nat × Nat))
    (h : runBuf (freshBuf sz) ops = some (c, ss, 0)) :
    ss.Pairwise (fun s t => s.1 + s.2 ≤ t.1 ∨ t.1 + t.2 ≤ s.1) := by
  have hm := (runBuf_mono ops (freshBuf sz) c ss h).2.2
  exact hm.imp (fun hst => Or.inl hst)

/-- Witness for C5: the two slots of the 4096-byte scenario do not overlap. -/
theorem slots_disjoint_witness :
    runBuf (freshBuf 4096) [BufOp.alloc 100, BufOp.alloc 100] =
      some (⟨4096, 204, 2⟩, [(0, 100), (104, 100)], 0) ∧
    ([(0, 100), (104, 100)] : List (Nat × Nat)).Pairwise
      (fun s t => s.1 + s.2 ≤ t.1 ∨ t.1 + t.2 ≤ s.1) :=
  ⟨by decide,
   slots_disjoint 4096 [BufOp.alloc 100, BufOp.alloc 100] ⟨4096, 204, 2⟩
     [(0, 100), (104, 100)] (by decide)⟩

/-- PAGE_SIZE of the platform the module is built for (4096 bytes). -/
def PAGE_SIZE : Nat := 4096

/-- kdbus_buffer_map_close (src/buffer.c:86-93) viewed through its effects:
put_page every one of the n pages recorded in the map, then kfree the page
array.  Returns (number of put_page calls, array freed). -/
def kdbus_buffer_map_close (n : Nat) : Nat × Bool := (n, true)

/-- Observable outcome of kdbus_buffer_map_open: return code, pages unpinned
on the way out (via kdbus_buffer_map_close on error paths), whether the page
array was released, and the resulting map fields n / cur / pos. -/
structure OpenResult where
  ret : Int
  putPages : Nat
  freedList : Bool
  n : Nat
  cur : Nat
  pos : Nat
deriving DecidableEq

/-- kdbus_buffer_map_open (src/buffer.c:96-147).  addr is the target user
address, len the range length.  The environment enters through three
parameters: kmallocOk (page-array allocation succeeds), mmLive (get_task_mm
finds a live memory space), and got (the get_user_pages return value: either
a negative errno or the number of pages actually pinned).  The memset at the
top zeroes the map, so map->n is 0 until got is stored into it. -/
def kdbus_buffer_map_open (addr len : Nat) (kmallocOk mmLive : Bool) (got : Int) :
    OpenResult :=
  let n := (addr + len - 1) / PAGE_SIZE - addr / PAGE_SIZE + 1
  if kmallocOk = false then
    ⟨-12, 0, false, 0, 0, 0⟩
  else
    let base := addr / PAGE_SIZE * PAGE_SIZE
    let pos := addr - base
    if mmLive = false then
      let eff := kdbus_buffer_map_close 0
      ⟨-108, eff.1, eff.2, 0, 0, pos⟩
    else if got < 0 then
      let eff := kdbus_buffer_map_close 0
      ⟨got, eff.1, eff.2, 0, 0, pos⟩
    else if got.toNat < n then
      let eff := kdbus_buffer_map_close got.toNat
      ⟨-14, eff.1, eff.2, got.toNat, 0, pos⟩
    else
      ⟨0, 0, false, got.toNat, 0, pos⟩

/-- C7: with the page array allocated, every failure path of open releases
every page pinned so far and the page array itself before returning: a dead
target memory space returns -ESHUTDOWN having pinned nothing; a negative
pinning-primitive result is returned as is (nothing was pinned); a short pin
of got < n pages returns -EFAULT (ShortPin) after unpinning exactly those got
pages; and only a full pin of all n pages succeeds. -/
theorem map_open_error_paths (addr len : Nat) (got : Int) :
    ((kdbus_buffer_map_open addr len true false got).ret = -108 ∧
     (kdbus_buffer_map_open addr len true false got).putPages = 0 ∧
     (kdbus_buffer_map_open addr len true false got).freedList = true) ∧
    (got < 0 →
      (kdbus_buffer_map_open addr len true true got).ret = got ∧
      (kdbus_buffer_map_open addr len true true got).putPages = 0 ∧
      (kdbus_buffer_map_open addr len true true got).freedList = true) ∧
    (0 ≤ got → got.toNat < (addr + len - 1) / PAGE_SIZE - addr / PAGE_SIZE + 1 →
      (kdbus_buffer_map_open addr len true true got).ret = -14 ∧
      (kdbus_buffer_map_open addr len true true got).putPages = got.toNat ∧
      (kdbus_buffer_map_open addr len true true got).freedList = true) ∧
    (0 ≤ got → (addr + len - 1) / PAGE_SIZE - addr / PAGE_SIZE + 1 ≤ got.toNat →
      (kdbus_buffer_map_open addr len true true got).ret = 0 ∧
      (kdbus_buffer_map_open addr len true true got).putPages = 0 ∧
      (kdbus_buffer_map_open addr len true true got).freedList = false ∧
      (kdbus_buffer_map_open addr len true true got).n = got.toNat) := by
  refine ⟨⟨rfl, rfl, rfl⟩, ?_, ?_, ?_⟩
  · intro h
    simp [kdbus_buffer_map_open, kdbus_buffer_map_close, h]
  · intro h0 hlt
    have hn : ¬ got < 0 := by omega
    simp [kdbus_buffer_map_open, kdbus_buffer_map_close, hn, hlt]
  · intro h0 hge
    have hn : ¬ got < 0 := by omega
    have hlt : ¬ got.toNat < (addr + len - 1) / PAGE_SIZE - addr / PAGE_SIZE + 1 := by
      omega
    simp [kdbus_buffer_map_open, kdbus_buffer_map_close, hn, hlt]

/-- Witness for C7: a 5000-byte range at address 100 spans 2 pages; pinning
only 1 page fails with -EFAULT after unpinning that page, a -12 from the
pinning primitive is passed through, and pinning both pages succeeds. -/
theorem map_open_error_paths_witness :
    kdbus_buffer_map_open 100 5000 true true 1 = ⟨-14, 1, true, 1, 0, 100⟩ ∧
    kdbus_buffer_map_open 100 5000 true true (-12) = ⟨-12, 0, true, 0, 0, 100⟩ ∧
    kdbus_buffer_map_open 100 5000 true true 2 = ⟨0, 0, false, 2, 0, 100⟩ := by
  have h := map_open_error_paths 100 5000
  refine ⟨?_, ?_, ?_⟩
  · have hc := (h 1).2.2.1 (by decide) (by decide)
    have : (kdbus_buffer_map_open 100 5000 true true 1).cur = 0 ∧
        (kdbus_buffer_map_open 100 5000 true true 1).pos = 100 := by decide
    obtain ⟨h1, h2, h3⟩ := hc
    obtain ⟨h5, h6⟩ := this
    have h4 : (kdbus_buffer_map_open 100 5000 true true 1).n = 1 := by decide
    cases hr : kdbus_buffer_map_open 100 5000 true true 1
    simp_all
  · have hc := (h (-12)).2.1 (by decide)
    obtain ⟨h1, h2, h3⟩ := hc
    have h4 : (kdbus_buffer_map_open 100 5000 true true (-12)).n = 0 ∧
        (kdbus_buffer_map_open 100 5000 true true (-12)).cur = 0 ∧
        (kdbus_buffer_map_open 100 5000 true true (-12)).pos = 100 := by decide
    obtain ⟨h5, h6, h7⟩ := h4
    cases hr : kdbus_buffer_map_open 100 5000 true true (-12)
    simp_all
  · have hc := (h 2).2.2.2 (by decide) (by decide)
    obtain ⟨h1, h2, h3, h4⟩ := hc
    have h5 : (kdbus_buffer_map_open 100 5000 true true 2).cur = 0 ∧
        (kdbus_buffer_map_open 100 5000 true true 2).pos = 100 := by decide
    obtain ⟨h6, h7⟩ := h5
    cases hr : kdbus_buffer_map_open 100 5000 true true 2
    simp_all

/-- Write cnt bytes from the source window into the flat pinned memory at
byte offset off (the pinned pages concatenated in order; kmap of page cur
exposes the window at offset cur * PAGE_SIZE).  Memory is byte-addressed as a
function so that single cells evaluate cheaply. -/
def memWrite (mem : Nat → Nat) (off : Nat) (src : Nat → Nat) (cnt : Nat) :
    Nat → Nat :=
  fun i => if off ≤ i ∧ i < off + cnt then src (i - off) else mem i

/-- Contract of the external kernel primitive copy_from_user, as the spec
describes it: copy bytes sequentially from the source window into the
destination; if the source faults at window offset f (faultAt = some f with
f < bytes), only the bytes before the fault are copied and a nonzero result
is returned.  Result is (failed?, updated memory).  faultAt is relative to
the pointer the caller passes, which in kdbus_buffer_map_write is always the
unmoved start of the source. -/
def copy_from_user (mem : Nat → Nat) (off : Nat) (src : Nat → Nat) (bytes : Nat)
    (faultAt : Option Nat) : Bool × (Nat → Nat) :=
  match faultAt with
  | none => (false, memWrite mem off src bytes)
  | some f =>
    if f < bytes then
      (true, memWrite mem off src f)
    else
      (false, memWrite mem off src bytes)

/-- Outcome of kdbus_buffer_map_write: return code, pinned memory content,
final write cursor (page index cur, intra-page position pos), and the sizes
of the completed windowed copies in order. -/
structure WriteResult where
  ret : Int
  mem : Nat → Nat
  cur : Nat
  pos : Nat
  chunks : List Nat

/-- Loop of kdbus_buffer_map_write (src/buffer.c:156-179).  Each iteration
copies bytes = min(PAGE_SIZE - pos, len) through the window of page cur at
offset pos, breaks with -14 (-EFAULT) before advancing if the copy faulted,
else advances pos (rolling over to the next page at PAGE_SIZE) and decrements
len.  Faithful to the source, the src pointer is never advanced: every
iteration re-reads src from its beginning, and faultAt keeps meaning the
first unreadable byte of src.  fuel bounds the iteration count (each
iteration consumes at least one byte whenever pos < PAGE_SIZE, so fuel = len
suffices). -/
def kdbus_buffer_map_write_go (fuel : Nat) (mem : Nat → Nat) (cur pos : Nat)
    (src : Nat → Nat) (len : Nat) (faultAt : Option Nat) : WriteResult :=
  match fuel with
  | 0 => ⟨0, mem, cur, pos, []⟩
  | Nat.succ fuel =>
    if len = 0 then
      ⟨0, mem, cur, pos, []⟩
    else
      let bytes := min (PAGE_SIZE - pos) len
      let copied := copy_from_user mem (cur * PAGE_SIZE + pos) src bytes faultAt
      if copied.1 then
        ⟨-14, copied.2, cur, pos, []⟩
      else
        let pos2 := pos + bytes
        let cur2 := if pos2 = PAGE_SIZE then cur + 1 else cur
        let pos3 := if pos2 = PAGE_SIZE then 0 else pos2
        let rest := kdbus_buffer_map_write_go fuel copied.2 cur2 pos3 src (len - bytes) faultAt
        ⟨rest.ret, rest.mem, rest.cur, rest.pos, bytes :: rest.chunks⟩

/-- kdbus_buffer_map_write (src/buffer.c:151-182): write len bytes of src
through the pinned window set starting at page cur, intra-page offset pos. -/
def kdbus_buffer_map_write (mem : Nat → Nat) (cur pos : Nat) (src : Nat → Nat)
    (len : Nat) (faultAt : Option Nat) : WriteResult :=
  kdbus_buffer_map_write_go len mem cur pos src len faultAt

/-- A 4097-byte source whose bytes are 0 except byte 4096, which is 1. -/
def srcMark : Nat → Nat := fun i => if i = 4096 then 1 else 0

/-- Fresh pinned memory holding 7 in every byte. -/
def memSeven : Nat → Nat := fun _ => 7

/-- A 5096-byte source whose bytes are 0 except byte 1096, which is 5. -/
def srcTail : Nat → Nat := fun i => if i = 1096 then 5 else 0

/-- C8 (code bug): a 4097-byte transfer into two fresh pinned pages does
perform k + 1 = 2 windowed copies of the right sizes (4096 then 1), but since
the source pointer is never advanced, the second window receives src[0] = 0
instead of src[4096] = 1: the concatenation of the written chunks is not the
source. -/
theorem write_repeats_source :
    (kdbus_buffer_map_write memSeven 0 0 srcMark 4097 none).ret = 0 ∧
    (kdbus_buffer_map_write memSeven 0 0 srcMark 4097 none).chunks = [4096, 1] ∧
    (kdbus_buffer_map_write memSeven 0 0 srcMark 4097 none).mem 4095 = srcMark 4095 ∧
    (kdbus_buffer_map_write memSeven 0 0 srcMark 4097 none).mem 4096 = 0 ∧
    srcMark 4096 = 1 := by
  refine ⟨by decide, by decide, by decide, by decide, by decide⟩

/-- C9 (code bug): the same transfer with the source faulting at byte offset
4096 (its second page unmapped).  A sequential copy would fault there, and
the claim demands an immediate CopyFault with nothing written beyond source
offset 4096.  Because the source pointer is never advanced, the code re-reads
src[0..1) in the second window, never touches the faulting byte, reports
success (0), completes both windowed copies, and writes the wrong byte
src[0] = 0 at destination offset 4096.  Second scenario, where the code does
fault: a 5096-byte transfer starting at intra-page offset 3000 with the
source faulting at byte 2000.  Window 1 copies src[0..1096) correctly;
window 2 re-reads src from the start and faults after copying 2000 bytes, so
transfer bytes [1096, 3096) receive src[0..2000): the transfer byte at
source offset 1096 (< f = 2000) holds src[0] = 0 instead of src[1096] = 5,
and transfer bytes past f = 2000 (e.g. destination byte 5500) were written,
both contradicting the claim. -/
theorem write_misses_fault :
    ((kdbus_buffer_map_write memSeven 0 0 srcMark 4097 (some 4096)).ret = 0 ∧
     (kdbus_buffer_map_write memSeven 0 0 srcMark 4097 (some 4096)).chunks = [4096, 1] ∧
     (kdbus_buffer_map_write memSeven 0 0 srcMark 4097 (some 4096)).mem 4096 = 0 ∧
     srcMark 4096 = 1) ∧
    ((kdbus_buffer_map_write memSeven 0 3000 srcTail 5096 (some 2000)).ret = -14 ∧
     (kdbus_buffer_map_write memSeven 0 3000 srcTail 5096 (some 2000)).chunks = [1096] ∧
     (kdbus_buffer_map_write memSeven 0 3000 srcTail 5096 (some 2000)).cur = 1 ∧
     (kdbus_buffer_map_write memSeven 0 3000 srcTail 5096 (some 2000)).pos = 0 ∧
     (kdbus_buffer_map_write memSeven 0 3000 srcTail 5096 (some 2000)).mem 4096 = 0 ∧
     srcTail 1096 = 5 ∧
     (kdbus_buffer_map_write memSeven 0 3000 srcTail 5096 (some 2000)).mem 5500 = 0 ∧
     memSeven 5500 = 7) := by
  exact ⟨⟨by decide, by decide, by decide, by decide⟩,
         ⟨by decide, by decide, by decide, by decide, by decide, by decide,
          by decide, by decide⟩⟩
